import Mathlib

/-!
# Shallow embedding of `src/src/lib/sceneManagement.ts`

The TypeScript module reconciles a declarative scene description against a
live widget tree.  We embed it with explicit state passing:

* JS `Map`/`WeakMap` objects become association lists (`mapGet`/`mapSet`/
  `mapDelete` mirror `get`/`set`/`delete`: `set` updates in place preserving
  insertion order, `delete` removes the unique entry).
* `Key` objects are compared by reference identity in the source
  (`includes(newKeys, key)`); we give every freshly allocated key a unique
  arena id (`Scene.nextKey`) and compare ids.
* The registry collaborator `registry.getWidget(identifier)` is modelled as a
  function `Registry := Identifier → Nat → Option Nat`: the second argument is
  the global call index (position in the call log) and the result is the
  resolved widget-instance id, or `none` for a rejected resolution.
* The asynchronous structure of `updateProjectorChildren` is made explicit in
  three phases, matching the single-threaded promise semantics:
  phase 1 (`resolveChildren`) is the synchronous `append.map(...)` body that
  allocates keys, consults the `widgets` cache and starts the
  `registry.getWidget` calls; phase 2 (`commitTasks`) runs the per-promise
  `.then` callbacks (`widgets.set`, `handles.set`) in an arbitrary completion
  order `order : List Nat` (indices into the task list); phase 3 is the
  `Promise.all(...).then` continuation (destroy loop over `previousKeys`,
  assignment of `projector.children`), which runs only when no resolution
  failed, exactly as a rejected `Promise.all` skips its `then`.
* `widget.destroy()` invocations are logged in `Scene.destroyed`;
  `projector.destroy()` is never invoked anywhere in the source, which the
  embedding records by the log `Scene.destroyedProjectors` that no operation
  appends to.  `projector.attach()` invocations are logged in `Scene.attached`.
-/

abbrev Identifier := String

/-- `SceneElement = SceneProjector | SceneWidget`; a `SceneProjector` carries
`append: SceneWidget[]` and each `SceneWidget` is just its identifier. -/
inductive SceneElement where
  | projector (append : List Identifier)
  | widget (identifier : Identifier)
deriving DecidableEq

/-- `interface Key { value: string }` — `id` is the arena id standing for the
object's reference identity. -/
structure Key where
  id : Nat
  value : String
deriving DecidableEq

/-- A live projector instance: its arena id, the mount root it was created
with, and its mutable `children` collection of widget-instance ids. -/
structure ProjectorInst where
  pid : Nat
  root : Nat
  children : List Nat
deriving DecidableEq

/-- The disposer closures stored in `state.handles`.  The projector handle's
`destroy` only deletes `projectorKeys[key.value]`; the widget handle's
`destroy` calls `widget.destroy()` and deletes `widgetKeys[key.value]`. -/
inductive Handle where
  | projectorHandle (keyValue : String)
  | widgetHandle (widget : Nat) (keyValue : String)
deriving DecidableEq

/-- `interface RenderState` — all maps as association lists. -/
structure RenderState where
  root : Nat
  projectorKeys : List (String × Key)
  projectors : List (Nat × ProjectorInst)
  children : List (Nat × List Key)
  widgetKeys : List (Identifier × Key)
  widgets : List (Nat × Nat)
  handles : List (Nat × Handle)
deriving DecidableEq

/-- The render state together with the allocation counters and the event logs
of the execution (registry calls, widget `destroy()` calls, projector
`destroy()` calls, `attach()` calls). -/
structure Scene where
  state : RenderState
  nextKey : Nat
  nextProj : Nat
  resolveCalls : List Identifier
  destroyed : List Nat
  destroyedProjectors : List Nat
  attached : List Nat
deriving DecidableEq

/-- The external widget registry: identifier and call index to resolved
widget-instance id (`none` = rejected resolution). -/
abbrev Registry := Identifier → Nat → Option Nat

/-- JS `Map.get`. -/
def mapGet {α β : Type} [DecidableEq α] (k : α) : List (α × β) → Option β
  | [] => none
  | (a, b) :: rest => if a = k then some b else mapGet k rest

/-- JS `Map.set`: update in place, else append (insertion order preserved). -/
def mapSet {α β : Type} [DecidableEq α] (k : α) (v : β) : List (α × β) → List (α × β)
  | [] => [(k, v)]
  | (a, b) :: rest => if a = k then (k, v) :: rest else (a, b) :: mapSet k v rest

/-- JS `Map.delete`: remove the (unique) entry for the key. -/
def mapDelete {α β : Type} [DecidableEq α] (k : α) : List (α × β) → List (α × β)
  | [] => []
  | (a, b) :: rest => if a = k then rest else (a, b) :: mapDelete k rest

/-- `class Counter { prefix; count }`. -/
structure Counter where
  pfx : String
  count : Nat

/-- `incr()` returns `` `${prefix}.${count++}` ``. -/
def Counter.incr (c : Counter) : String × Counter :=
  (c.pfx ++ "." ++ toString c.count, ⟨c.pfx, c.count + 1⟩)

/-- `level()` returns `` new Counter(`${prefix}.${count}`) ``. -/
def Counter.level (c : Counter) : Counter :=
  ⟨c.pfx ++ "." ++ toString c.count, 0⟩

/-- One element of the `children` array built by `append.map(...)`:
either a synchronously produced `{ key, widget }` (cache hit) or a pending
`registry.getWidget` call whose outcome is already determined (`none` =
the promise will reject). -/
inductive ChildTask where
  | cached (key : Key) (widget : Nat)
  | pending (key : Key) (outcome : Option Nat)
deriving DecidableEq

def ChildTask.key : ChildTask → Key
  | .cached k _ => k
  | .pending k _ => k

/-- The widget instance a resolved task contributes to the `Promise.all`
result (the `widget` of its own `{ key, widget }`). -/
def ChildTask.taskWidget : ChildTask → Option Nat
  | .cached _ w => some w
  | .pending _ out => out

def taskFailed : ChildTask → Bool
  | .pending _ none => true
  | _ => false

/-- `Promise.all` rejects iff some component promise rejected. -/
def anyFailed (tasks : List ChildTask) : Bool := tasks.any taskFailed

/-- The body of `append.map(({ widget: value }) => ...)` for one identifier:
look up or create the Key in `widgetKeys`, then either hit the `widgets`
cache or start a `registry.getWidget(value)` call (logged in
`resolveCalls`; its call index is the log's length at call time). -/
def resolveChild (registry : Registry) (sc : Scene) (value : Identifier) :
    Scene × ChildTask :=
  let keyed : Key × Scene :=
    match mapGet value sc.state.widgetKeys with
    | some k => (k, sc)
    | none =>
      let k : Key := ⟨sc.nextKey, value⟩
      (k, { sc with
              nextKey := sc.nextKey + 1,
              state := { sc.state with
                widgetKeys := mapSet value k sc.state.widgetKeys } })
  let key := keyed.fst
  let sc := keyed.snd
  match mapGet key.id sc.state.widgets with
  | some w => (sc, .cached key w)
  | none =>
    ({ sc with resolveCalls := sc.resolveCalls ++ [value] },
     .pending key (registry value sc.resolveCalls.length))

/-- The whole synchronous `append.map(...)` pass, in order. -/
def resolveChildren (registry : Registry) (sc : Scene) :
    List Identifier → Scene × List ChildTask
  | [] => (sc, [])
  | v :: rest =>
    let p := resolveChild registry sc v
    let q := resolveChildren registry p.fst rest
    (q.fst, p.snd :: q.snd)

/-- The `.then` callback of one `registry.getWidget` promise:
`state.widgets.set(key, widget); state.handles.set(key, { destroy() {...} })`.
Cached tasks and rejected promises contribute nothing. -/
def commitTask (sc : Scene) : ChildTask → Scene
  | .cached _ _ => sc
  | .pending _ none => sc
  | .pending key (some w) =>
    { sc with state := { sc.state with
        widgets := mapSet key.id w sc.state.widgets,
        handles := mapSet key.id (.widgetHandle w key.value) sc.state.handles } }

/-- Run the per-promise `.then` callbacks in completion order `order`
(indices into `tasks`; out-of-range indices do nothing). -/
def commitTasks (tasks : List ChildTask) (order : List Nat) (sc : Scene) : Scene :=
  match order with
  | [] => sc
  | i :: rest =>
    match tasks[i]? with
    | some t => commitTasks tasks rest (commitTask sc t)
    | none => commitTasks tasks rest sc

/-- Invoke a stored handle's `destroy()`. -/
def applyHandle (sc : Scene) : Handle → Scene
  | .projectorHandle v =>
    { sc with state := { sc.state with
        projectorKeys := mapDelete v sc.state.projectorKeys } }
  | .widgetHandle w v =>
    { sc with
        destroyed := sc.destroyed ++ [w],
        state := { sc.state with
          widgetKeys := mapDelete v sc.state.widgetKeys } }

/-- The destroy loop of `updateProjectorChildren`: for every previous key not
present (by reference identity) in `newKeys`, invoke its handle. -/
def destroyRemoved (newKeys : List Key) : List Key → Scene → Scene
  | [], sc => sc
  | k :: rest, sc =>
    if newKeys.any (fun nk => nk.id = k.id) then
      destroyRemoved newKeys rest sc
    else
      match mapGet k.id sc.state.handles with
      | some h => destroyRemoved newKeys rest (applyHandle sc h)
      | none => destroyRemoved newKeys rest sc

/-- `updateProjectorChildren(registry, state, counter, projectorKey, projector,
append)`.  Returns the final scene and whether the returned promise resolved
(`true`) or rejected (`false`).  Note that the source never stores
`children[projectorKey] = newKeys`; only the live `projector.children`
collection is assigned. -/
def updateProjectorChildren (registry : Registry) (sc : Scene)
    (_counter : Counter) (projectorKey : Key) (append : List Identifier)
    (order : List Nat) : Scene × Bool :=
  let p := resolveChildren registry sc append
  let tasks := p.snd
  let sc := commitTasks tasks order p.fst
  if anyFailed tasks then
    (sc, false)
  else
    let newKeys := tasks.map ChildTask.key
    let previousKeys := (mapGet projectorKey.id sc.state.children).getD []
    let sc := destroyRemoved newKeys previousKeys sc
    let ws := tasks.map (fun t => t.taskWidget.getD 0)
    let sc := { sc with state := { sc.state with
      projectors :=
        match mapGet projectorKey.id sc.state.projectors with
        | some proj =>
          mapSet projectorKey.id { proj with children := ws } sc.state.projectors
        | none => sc.state.projectors } }
    (sc, true)

/-- `update(registry, state, counter, tree)`: obtain or create the projector
key and instance for this position, then reconcile the children and, on
success, `projector.attach()`. -/
def update (registry : Registry) (sc : Scene) (counter : Counter)
    (append : List Identifier) (order : List Nat) : Scene × Bool :=
  let inc := counter.incr
  let projectorId := inc.fst
  let counter := inc.snd
  let keyed : Key × Scene :=
    match mapGet projectorId sc.state.projectorKeys with
    | some k => (k, sc)
    | none =>
      let k : Key := ⟨sc.nextKey, projectorId⟩
      (k, { sc with
              nextKey := sc.nextKey + 1,
              state := { sc.state with
                projectorKeys := mapSet projectorId k sc.state.projectorKeys } })
  let projectorKey := keyed.fst
  let sc := keyed.snd
  let made : ProjectorInst × Scene :=
    match mapGet projectorKey.id sc.state.projectors with
    | some proj => (proj, sc)
    | none =>
      let proj : ProjectorInst := ⟨sc.nextProj, sc.state.root, []⟩
      (proj, { sc with
                nextProj := sc.nextProj + 1,
                state := { sc.state with
                  projectors := mapSet projectorKey.id proj sc.state.projectors,
                  children := mapSet projectorKey.id ([] : List Key) sc.state.children,
                  handles := mapSet projectorKey.id
                    (.projectorHandle projectorKey.value) sc.state.handles } })
  let projector := made.fst
  let sc := made.snd
  let r := updateProjectorChildren registry sc counter.level projectorKey append order
  if r.snd then
    ({ r.fst with attached := r.fst.attached ++ [projector.pid] }, true)
  else
    (r.fst, false)

/-- The state constructed on the first `render` call for a registry. -/
def initialScene (root : Nat) : Scene :=
  { state := { root := root, projectorKeys := [], projectors := [],
               children := [], widgetKeys := [], widgets := [], handles := [] },
    nextKey := 0, nextProj := 0, resolveCalls := [], destroyed := [],
    destroyedProjectors := [], attached := [] }

/-- `render(registry, root, tree)`.  `prev` is `renderState.get(registry)`
before the call; the returned `Option Scene` is it after the call.  The
`Bool` is `true` iff the returned promise resolves.  A non-projector tree is
rejected synchronously, before the state is read or created. -/
def render (registry : Registry) (root : Nat) (tree : SceneElement)
    (prev : Option Scene) (order : List Nat) : Option Scene × Bool :=
  match tree with
  | .widget _ => (prev, false)
  | .projector append =>
    let sc := prev.getD (initialScene root)
    let r := update registry sc ⟨"", 0⟩ append order
    (some r.fst, r.snd)

/-- The `destroy()` of the composite handle returned by a successful
`render`: invoke the handle of every key in `projectorKeys`, then of every
key in `widgetKeys` (each handle present at that moment). -/
def renderHandleDestroy (sc : Scene) : Scene :=
  let sc :=
    (sc.state.projectorKeys.map Prod.snd).foldl
      (fun s k =>
        match mapGet k.id s.state.handles with
        | some h => applyHandle s h
        | none => s) sc
  (sc.state.widgetKeys.map Prod.snd).foldl
    (fun s k =>
      match mapGet k.id s.state.handles with
      | some h => applyHandle s h
      | none => s) sc

/-- A registry that resolves identifier `A` to instance `10` and `B` to `11`,
independent of the call index. -/
def regAB : Registry := fun v _ =>
  if v = "A" then some 10 else if v = "B" then some 11 else none

/-- A registry that returns a fresh instance (`100 + call index`) on every
call, as a factory constructing a new widget per resolution. -/
def regFresh : Registry := fun _ n => some (100 + n)

/-- A registry whose every resolution is rejected. -/
def regFail : Registry := fun _ _ => none

/-- A registry that rejects identifier `B` and resolves everything else to a
fresh instance. -/
def regBFail : Registry := fun v n => if v = "B" then none else some (100 + n)

/-- A registry that rejects its first call and resolves later calls to `7`. -/
def regFailThenOk : Registry := fun _ n => if n = 0 then none else some 7

def c1First : Option Scene × Bool :=
  render regAB 0 (SceneElement.projector ["A", "B"]) none [0, 1]

def c1Second : Option Scene × Bool :=
  render regAB 0 (SceneElement.projector ["A"]) c1First.fst [0]

def c1Third : Option Scene × Bool :=
  render regAB 0 (SceneElement.projector ["A", "B"]) c1Second.fst [0, 1]

def c1Scene : Scene := c1Second.fst.getD (initialScene 0)

def c1SceneThird : Scene := c1Third.fst.getD (initialScene 0)

def c2Run : Option Scene × Bool :=
  render regAB 0 (SceneElement.projector ["A"]) none [0]

def c2Scene : Scene := c2Run.fst.getD (initialScene 0)

def c3Run : Option Scene × Bool :=
  render regFresh 0 (SceneElement.projector ["A", "A"]) none [0, 1]

def c3Scene : Scene := c3Run.fst.getD (initialScene 0)

def c4Run : Option Scene × Bool :=
  render regFail 0 (SceneElement.projector ["A"]) none [0]

def c4Scene : Scene := c4Run.fst.getD (initialScene 0)

def c7First : Option Scene × Bool :=
  render regFresh 0 (SceneElement.projector ["A", "A"]) none [0, 1]

def c7Second : Option Scene × Bool :=
  render regFresh 0 (SceneElement.projector ["A", "A"]) c7First.fst [0, 1]

def c7SceneFirst : Scene := c7First.fst.getD (initialScene 0)

def c7SceneSecond : Scene := c7Second.fst.getD (initialScene 0)

def c8Run : Option Scene × Bool :=
  render regAB 0 (SceneElement.projector ["A", "B"]) none [0, 1]

def c8Scene : Scene := c8Run.fst.getD (initialScene 0)

def c8After : Scene := renderHandleDestroy c8Scene

def c9Scene : Scene :=
  { state := { root := 0, projectorKeys := [], projectors := [], children := [],
               widgetKeys := [("A", ⟨5, "A"⟩)], widgets := [(5, 7)],
               handles := [(5, Handle.widgetHandle 7 "A")] },
    nextKey := 6, nextProj := 0, resolveCalls := [], destroyed := [],
    destroyedProjectors := [], attached := [] }

/-- Well-formedness: every key stored in `widgetKeys` wraps the identifier it
is stored under (true of every reachable state: keys are created as
`{ value }`). -/
def WidgetKeysWF (sc : Scene) : Prop :=
  ∀ u k, mapGet u sc.state.widgetKeys = some k → k.value = u

/-- The scene right after the first `update` has allocated the projector key
and instance, just before child reconciliation. -/
def scratchScene : Scene :=
  { state := { root := 0, projectorKeys := [(".0", ⟨0, ".0"⟩)],
               projectors := [(0, ⟨0, 0, []⟩)], children := [(0, [])],
               widgetKeys := [], widgets := [], handles := [(0, Handle.projectorHandle ".0")] },
    nextKey := 1, nextProj := 1, resolveCalls := [], destroyed := [],
    destroyedProjectors := [], attached := [] }

/-- The scene after a render of `[A,B]` in which A resolved to `ia` and B's
resolution was rejected. -/
def failedScene (ia : Nat) : Scene :=
  { state := { root := 0, projectorKeys := [(".0", ⟨0, ".0"⟩)],
               projectors := [(0, ⟨0, 0, []⟩)], children := [(0, [])],
               widgetKeys := [("A", ⟨1, "A"⟩), ("B", ⟨2, "B"⟩)],
               widgets := [(1, ia)],
               handles := [(0, Handle.projectorHandle ".0"),
                           (1, Handle.widgetHandle ia "A")] },
    nextKey := 3, nextProj := 1, resolveCalls := ["A", "B"], destroyed := [],
    destroyedProjectors := [], attached := [] }

def regBFailOnce : Registry := fun v n =>
  if v = "B" ∧ n = 1 then none else some (100 + n)

/-! ## Helper lemmas and claim theorems -/

/-- C1: the claim fails on the code.  Rendering `[A,B]` then `[A]` does NOT
destroy B's instance and does not evict it from `widgetKeys`/`widgets`/
`handles`: the destroy loop compares against `children[projectorKey]`, which
is initialized to `[]` at projector creation and never updated afterwards
(`updateProjectorChildren` never stores `newKeys`), so no widget is ever
destroyed by reconciliation.  A third render with `[A,B]` is a cache hit for
B: the registry is not called again and the old instance `11` is reused
instead of a fresh one. -/
theorem removal_never_happens :
    c1First.snd = true ∧ c1Second.snd = true ∧ c1Second.fst = some c1Scene ∧
    c1Scene.destroyed = [] ∧
    mapGet "B" c1Scene.state.widgetKeys = some ⟨2, "B"⟩ ∧
    mapGet 2 c1Scene.state.widgets = some 11 ∧
    mapGet 2 c1Scene.state.handles = some (Handle.widgetHandle 11 "B") ∧
    mapGet 0 c1Scene.state.children = some [] ∧
    c1Third.snd = true ∧ c1Third.fst = some c1SceneThird ∧
    c1SceneThird.resolveCalls = ["A", "B"] ∧
    mapGet 0 c1SceneThird.state.projectors = some ⟨0, 0, [10, 11]⟩ := by decide

/-- C2: the claim fails on the code.  After a successful reconciliation of the
projector with requested children `[A]`, the requested child's key is
`⟨1, "A"⟩` and the live child collection was assigned `[10]`, yet the state's
`children` entry for the projector key still holds `[]`, not `[⟨1, "A"⟩]`:
`children[parentKey] = newKeys` is never committed by
`updateProjectorChildren`. -/
theorem children_map_not_committed :
    c2Run.snd = true ∧ c2Run.fst = some c2Scene ∧
    mapGet "A" c2Scene.state.widgetKeys = some ⟨1, "A"⟩ ∧
    mapGet 0 c2Scene.state.projectors = some ⟨0, 0, [10]⟩ ∧
    mapGet 0 c2Scene.state.children = some [] ∧
    ([] : List Key) ≠ [⟨1, "A"⟩] := by decide

/-- C3 counterexample: rendering `[A,A]` with no cached instance for `A`
invokes the registry TWICE for `A` (the second position runs before the first
resolution's `.then` has populated the `widgets` cache), and with a registry
whose calls construct fresh instances the resulting child collection is
`[100, 101]` — two distinct instances, not the same instance twice. -/
theorem duplicate_resolution_counterexample :
    c3Run.snd = true ∧ c3Run.fst = some c3Scene ∧
    c3Scene.resolveCalls = ["A", "A"] ∧
    mapGet 0 c3Scene.state.projectors = some ⟨0, 0, [100, 101]⟩ ∧
    (100 : Nat) ≠ 101 := by decide

/-- C4 counterexample: when the resolution of `A` fails, the render fails,
but a Key for `A` IS installed in `widgetKeys` — the key is created and
stored synchronously before `registry.getWidget` is called, and the failure
path never removes it.  (The claim says `widgetKeys` is left without an entry
for the identifier.) -/
theorem failed_resolution_key_remains :
    c4Run.snd = false ∧ c4Run.fst = some c4Scene ∧
    mapGet "A" c4Scene.state.widgetKeys = some ⟨1, "A"⟩ := by decide

/-- C5: calling `render` with a tree whose root is not a `SceneProjector`
returns a rejected result synchronously: the stored render state is returned
untouched (in particular none is created or registered when there was none),
no keys are created, no registry call is made, and no asynchronous work is
started. -/
theorem render_nonProjector_rejects (registry : Registry) (root : Nat)
    (v : Identifier) (prev : Option Scene) (order : List Nat) :
    render registry root (SceneElement.widget v) prev order = (prev, false) := rfl

/-- C7 counterexample: the tree `[Projector → [A,A]]` rendered twice unchanged
against the same registry refutes the claim as stated: the registry is
invoked twice for identifier `A` (both during the first render), and the
widget instance at position 0 differs between the renders (`100` on the
first, `101` on the second — the second render serves the cached instance,
which is the one written last). -/
theorem identity_stability_duplicates_counterexample :
    c7First.snd = true ∧ c7Second.snd = true ∧
    c7Second.fst = some c7SceneSecond ∧
    c7SceneSecond.resolveCalls = ["A", "A"] ∧
    c7SceneSecond.resolveCalls.count "A" = 2 ∧
    mapGet 0 c7SceneFirst.state.projectors = some ⟨0, 0, [100, 101]⟩ ∧
    mapGet 0 c7SceneSecond.state.projectors = some ⟨0, 0, [101, 101]⟩ := by decide

/-- C8 counterexample: after a successful render of `[Projector → [A,B]]`,
invoking the returned composite handle's `destroy` destroys the widget
instances of A and B (once each), but the projector instance itself is NOT
destroyed: the projector's stored handle only deletes the projector's key
from `projectorKeys` and never calls the projector instance's `destroy()`. -/
theorem teardown_projector_not_destroyed :
    c8Run.snd = true ∧ c8Run.fst = some c8Scene ∧
    mapGet 0 c8Scene.state.projectors = some ⟨0, 0, [10, 11]⟩ ∧
    c8After.destroyed = [10, 11] ∧
    c8After.destroyedProjectors = [] ∧
    mapGet ".0" c8After.state.projectorKeys = none := by decide

/-- C9: the destroy of a widget handle is not idempotent.  Invoking it once
calls the underlying instance's `destroy()` and removes only the `widgetKeys`
entry — `widgets` and `handles` are untouched, so the handle remains
reachable via the `handles` map; invoking it a second time calls the
instance's `destroy()` again. -/
theorem widget_handle_destroy_not_idempotent (sc : Scene) (k w : Nat)
    (v : Identifier)
    (h : mapGet k sc.state.handles = some (Handle.widgetHandle w v)) :
    (applyHandle sc (Handle.widgetHandle w v)).destroyed = sc.destroyed ++ [w] ∧
    (applyHandle sc (Handle.widgetHandle w v)).state.widgetKeys
      = mapDelete v sc.state.widgetKeys ∧
    (applyHandle sc (Handle.widgetHandle w v)).state.widgets = sc.state.widgets ∧
    (applyHandle sc (Handle.widgetHandle w v)).state.handles = sc.state.handles ∧
    mapGet k (applyHandle sc (Handle.widgetHandle w v)).state.handles
      = some (Handle.widgetHandle w v) ∧
    (applyHandle (applyHandle sc (Handle.widgetHandle w v))
      (Handle.widgetHandle w v)).destroyed = sc.destroyed ++ [w, w] := by
  refine ⟨rfl, rfl, rfl, rfl, h, ?_⟩
  simp [applyHandle]

/-- Witness for C9 at a concrete scene holding one widget with a handle. -/
theorem widget_handle_destroy_not_idempotent_witness :
    (applyHandle c9Scene (Handle.widgetHandle 7 "A")).destroyed
      = c9Scene.destroyed ++ [7] ∧
    (applyHandle c9Scene (Handle.widgetHandle 7 "A")).state.widgetKeys
      = mapDelete "A" c9Scene.state.widgetKeys ∧
    (applyHandle c9Scene (Handle.widgetHandle 7 "A")).state.widgets
      = c9Scene.state.widgets ∧
    (applyHandle c9Scene (Handle.widgetHandle 7 "A")).state.handles
      = c9Scene.state.handles ∧
    mapGet 5 (applyHandle c9Scene (Handle.widgetHandle 7 "A")).state.handles
      = some (Handle.widgetHandle 7 "A") ∧
    (applyHandle (applyHandle c9Scene (Handle.widgetHandle 7 "A"))
      (Handle.widgetHandle 7 "A")).destroyed = c9Scene.destroyed ++ [7, 7] :=
  widget_handle_destroy_not_idempotent c9Scene 5 7 "A" (by decide)

theorem mapGet_mapSet_self {α β : Type} [DecidableEq α] (k : α) (v : β)
    (m : List (α × β)) : mapGet k (mapSet k v m) = some v := by
  induction m with
  | nil => simp [mapGet, mapSet]
  | cons hd tl ih =>
    obtain ⟨a, b⟩ := hd
    by_cases h : a = k <;> simp [mapGet, mapSet, h, ih]

theorem mapGet_mapSet_ne {α β : Type} [DecidableEq α] {k k' : α} (v : β)
    (m : List (α × β)) (h : k' ≠ k) :
    mapGet k (mapSet k' v m) = mapGet k m := by
  induction m with
  | nil => simp [mapGet, mapSet, h]
  | cons hd tl ih =>
    obtain ⟨a, b⟩ := hd
    by_cases ha : a = k'
    · subst ha; simp [mapGet, mapSet, h]
    · simp [mapGet, mapSet, ha, ih]

theorem resolveChild_frame (registry : Registry) (sc : Scene) (v : Identifier) :
    (resolveChild registry sc v).fst.state.root = sc.state.root ∧
    (resolveChild registry sc v).fst.state.projectorKeys = sc.state.projectorKeys ∧
    (resolveChild registry sc v).fst.state.projectors = sc.state.projectors ∧
    (resolveChild registry sc v).fst.state.children = sc.state.children ∧
    (resolveChild registry sc v).fst.state.widgets = sc.state.widgets ∧
    (resolveChild registry sc v).fst.state.handles = sc.state.handles ∧
    (resolveChild registry sc v).fst.nextProj = sc.nextProj ∧
    (resolveChild registry sc v).fst.destroyed = sc.destroyed ∧
    (resolveChild registry sc v).fst.destroyedProjectors = sc.destroyedProjectors ∧
    (resolveChild registry sc v).fst.attached = sc.attached := by
  unfold resolveChild
  cases h : mapGet v sc.state.widgetKeys <;> dsimp <;>
    (cases h2 : mapGet _ sc.state.widgets <;> simp)

theorem resolveChildren_frame (registry : Registry) (append : List Identifier)
    (sc : Scene) :
    (resolveChildren registry sc append).fst.state.root = sc.state.root ∧
    (resolveChildren registry sc append).fst.state.projectorKeys = sc.state.projectorKeys ∧
    (resolveChildren registry sc append).fst.state.projectors = sc.state.projectors ∧
    (resolveChildren registry sc append).fst.state.children = sc.state.children ∧
    (resolveChildren registry sc append).fst.state.widgets = sc.state.widgets ∧
    (resolveChildren registry sc append).fst.state.handles = sc.state.handles ∧
    (resolveChildren registry sc append).fst.nextProj = sc.nextProj ∧
    (resolveChildren registry sc append).fst.destroyed = sc.destroyed ∧
    (resolveChildren registry sc append).fst.destroyedProjectors = sc.destroyedProjectors ∧
    (resolveChildren registry sc append).fst.attached = sc.attached := by
  induction append generalizing sc with
  | nil => simp [resolveChildren]
  | cons v rest ih =>
    have h1 := resolveChild_frame registry sc v
    have h2 := ih (resolveChild registry sc v).fst
    simp only [resolveChildren]
    exact ⟨h2.1.trans h1.1, h2.2.1.trans h1.2.1, h2.2.2.1.trans h1.2.2.1,
      h2.2.2.2.1.trans h1.2.2.2.1, h2.2.2.2.2.1.trans h1.2.2.2.2.1,
      h2.2.2.2.2.2.1.trans h1.2.2.2.2.2.1, h2.2.2.2.2.2.2.1.trans h1.2.2.2.2.2.2.1,
      h2.2.2.2.2.2.2.2.1.trans h1.2.2.2.2.2.2.2.1,
      h2.2.2.2.2.2.2.2.2.1.trans h1.2.2.2.2.2.2.2.2.1,
      h2.2.2.2.2.2.2.2.2.2.trans h1.2.2.2.2.2.2.2.2.2⟩

/-- Once `widgetKeys` maps `u` to `k`, it still does after one more
resolution step. -/
theorem resolveChild_widgetKeys_mono (registry : Registry) (sc : Scene)
    (v : Identifier) {u : Identifier} {k : Key}
    (h : mapGet u sc.state.widgetKeys = some k) :
    mapGet u (resolveChild registry sc v).fst.state.widgetKeys = some k := by
  unfold resolveChild
  cases hv : mapGet v sc.state.widgetKeys with
  | some kv => dsimp; cases h2 : mapGet kv.id sc.state.widgets <;> simp [h]
  | none =>
    dsimp
    have hne : v ≠ u := by rintro rfl; rw [hv] at h; exact Option.noConfusion h
    cases h2 : mapGet sc.nextKey sc.state.widgets <;>
      simp [mapGet_mapSet_ne _ _ hne, h]

theorem resolveChildren_widgetKeys_mono (registry : Registry)
    (append : List Identifier) (sc : Scene) {u : Identifier} {k : Key}
    (h : mapGet u sc.state.widgetKeys = some k) :
    mapGet u (resolveChildren registry sc append).fst.state.widgetKeys = some k := by
  induction append generalizing sc with
  | nil => simpa [resolveChildren] using h
  | cons v rest ih =>
    simp only [resolveChildren]
    exact ih _ (resolveChild_widgetKeys_mono registry sc v h)

theorem commitTask_frame (sc : Scene) (t : ChildTask) :
    (commitTask sc t).state.root = sc.state.root ∧
    (commitTask sc t).state.projectorKeys = sc.state.projectorKeys ∧
    (commitTask sc t).state.projectors = sc.state.projectors ∧
    (commitTask sc t).state.children = sc.state.children ∧
    (commitTask sc t).state.widgetKeys = sc.state.widgetKeys ∧
    (commitTask sc t).nextKey = sc.nextKey ∧
    (commitTask sc t).nextProj = sc.nextProj ∧
    (commitTask sc t).resolveCalls = sc.resolveCalls ∧
    (commitTask sc t).destroyed = sc.destroyed ∧
    (commitTask sc t).destroyedProjectors = sc.destroyedProjectors ∧
    (commitTask sc t).attached = sc.attached := by
  cases t with
  | cached k w => simp [commitTask]
  | pending k out => cases out <;> simp [commitTask]

theorem commitTasks_frame (tasks : List ChildTask) (order : List Nat) (sc : Scene) :
    (commitTasks tasks order sc).state.root = sc.state.root ∧
    (commitTasks tasks order sc).state.projectorKeys = sc.state.projectorKeys ∧
    (commitTasks tasks order sc).state.projectors = sc.state.projectors ∧
    (commitTasks tasks order sc).state.children = sc.state.children ∧
    (commitTasks tasks order sc).state.widgetKeys = sc.state.widgetKeys ∧
    (commitTasks tasks order sc).nextKey = sc.nextKey ∧
    (commitTasks tasks order sc).nextProj = sc.nextProj ∧
    (commitTasks tasks order sc).resolveCalls = sc.resolveCalls ∧
    (commitTasks tasks order sc).destroyed = sc.destroyed ∧
    (commitTasks tasks order sc).destroyedProjectors = sc.destroyedProjectors ∧
    (commitTasks tasks order sc).attached = sc.attached := by
  induction order generalizing sc with
  | nil => simp [commitTasks]
  | cons i rest ih =>
    simp only [commitTasks]
    cases h : tasks[i]? with
    | none => exact ih sc
    | some t =>
      have h1 := commitTask_frame sc t
      have h2 := ih (commitTask sc t)
      exact ⟨h2.1.trans h1.1, h2.2.1.trans h1.2.1, h2.2.2.1.trans h1.2.2.1,
        h2.2.2.2.1.trans h1.2.2.2.1, h2.2.2.2.2.1.trans h1.2.2.2.2.1,
        h2.2.2.2.2.2.1.trans h1.2.2.2.2.2.1, h2.2.2.2.2.2.2.1.trans h1.2.2.2.2.2.2.1,
        h2.2.2.2.2.2.2.2.1.trans h1.2.2.2.2.2.2.2.1,
        h2.2.2.2.2.2.2.2.2.1.trans h1.2.2.2.2.2.2.2.2.1,
        h2.2.2.2.2.2.2.2.2.2.1.trans h1.2.2.2.2.2.2.2.2.2.1,
        h2.2.2.2.2.2.2.2.2.2.2.trans h1.2.2.2.2.2.2.2.2.2.2⟩

theorem applyHandle_projectors (sc : Scene) (h : Handle) :
    (applyHandle sc h).state.projectors = sc.state.projectors := by
  cases h <;> simp [applyHandle]

theorem destroyRemoved_projectors (newKeys : List Key) (prev : List Key)
    (sc : Scene) :
    (destroyRemoved newKeys prev sc).state.projectors = sc.state.projectors := by
  induction prev generalizing sc with
  | nil => simp [destroyRemoved]
  | cons k rest ih =>
    simp only [destroyRemoved]
    by_cases hk : newKeys.any (fun nk => nk.id = k.id)
    · simp [hk, ih]
    · simp only [hk]
      cases h : mapGet k.id sc.state.handles with
      | none => simp [ih]
      | some hd => simp [ih, applyHandle_projectors]

theorem resolveChildren_length (registry : Registry) (append : List Identifier)
    (sc : Scene) :
    (resolveChildren registry sc append).snd.length = append.length := by
  induction append generalizing sc with
  | nil => simp [resolveChildren]
  | cons v rest ih => simp [resolveChildren, ih]

theorem resolveChild_key_value (registry : Registry) (sc : Scene)
    (v : Identifier) (hwf : WidgetKeysWF sc) :
    ((resolveChild registry sc v).snd).key.value = v := by
  unfold resolveChild
  cases hv : mapGet v sc.state.widgetKeys with
  | some k =>
    dsimp
    cases h2 : mapGet k.id sc.state.widgets <;> simp [ChildTask.key, hwf v k hv]
  | none =>
    dsimp
    cases h2 : mapGet sc.nextKey sc.state.widgets <;> simp [ChildTask.key]

theorem resolveChild_wf (registry : Registry) (sc : Scene) (v : Identifier)
    (hwf : WidgetKeysWF sc) : WidgetKeysWF (resolveChild registry sc v).fst := by
  unfold resolveChild
  cases hv : mapGet v sc.state.widgetKeys with
  | some k =>
    dsimp
    cases h2 : mapGet k.id sc.state.widgets <;> simpa using hwf
  | none =>
    dsimp
    cases h2 : mapGet sc.nextKey sc.state.widgets <;>
    · intro u k hk
      by_cases hu : u = v
      · subst hu
        rw [mapGet_mapSet_self] at hk
        cases hk; rfl
      · rw [mapGet_mapSet_ne _ _ (Ne.symm hu)] at hk
        exact hwf u k hk

/-- The task at position `n` is for the identifier requested at position `n`:
its key wraps exactly that identifier. -/
theorem resolveChildren_value (registry : Registry) (append : List Identifier)
    (sc : Scene) (hwf : WidgetKeysWF sc) :
    ∀ (n : Nat) (v : Identifier), append[n]? = some v →
      ∃ t : ChildTask, (resolveChildren registry sc append).snd[n]? = some t ∧
        t.key.value = v := by
  induction append generalizing sc with
  | nil => intro n v h; simp at h
  | cons w rest ih =>
    intro n v h
    cases n with
    | zero =>
      simp at h
      subst h
      exact ⟨(resolveChild registry sc w).snd, by simp [resolveChildren],
        resolveChild_key_value registry sc w hwf⟩
    | succ m =>
      simp at h
      obtain ⟨t, ht, hv⟩ := ih (resolveChild registry sc w).fst
        (resolveChild_wf registry sc w hwf) m v h
      exact ⟨t, by simpa [resolveChildren] using ht, hv⟩

/-- C6: the child collection assigned to the projector by a successful
reconciliation is the list of per-position resolved instances in requested
order, and it does not depend on the completion order `order` of the
asynchronous resolutions (the right-hand side mentions only the phase-1 task
list, never `order`). -/
theorem children_order_requested (registry : Registry) (sc : Scene)
    (c : Counter) (pk : Key) (append : List Identifier) (order : List Nat)
    (p : ProjectorInst)
    (hwf : WidgetKeysWF sc)
    (hfail : anyFailed (resolveChildren registry sc append).snd = false)
    (hp : mapGet pk.id sc.state.projectors = some p) :
    (updateProjectorChildren registry sc c pk append order).snd = true ∧
    (resolveChildren registry sc append).snd.length = append.length ∧
    (∀ (n : Nat) (v : Identifier), append[n]? = some v →
      ∃ t : ChildTask, (resolveChildren registry sc append).snd[n]? = some t ∧
        t.key.value = v) ∧
    mapGet pk.id
        (updateProjectorChildren registry sc c pk append order).fst.state.projectors
      = some { p with children :=
          ((resolveChildren registry sc append).snd.map
            (fun t => t.taskWidget.getD 0)) } := by
  have hproj :
      mapGet pk.id
        (destroyRemoved ((resolveChildren registry sc append).snd.map ChildTask.key)
          ((mapGet pk.id (commitTasks (resolveChildren registry sc append).snd order
              (resolveChildren registry sc append).fst).state.children).getD [])
          (commitTasks (resolveChildren registry sc append).snd order
            (resolveChildren registry sc append).fst)).state.projectors = some p := by
    rw [destroyRemoved_projectors,
      (commitTasks_frame (resolveChildren registry sc append).snd order
        (resolveChildren registry sc append).fst).2.2.1,
      (resolveChildren_frame registry append sc).2.2.1, hp]
  refine ⟨?_, resolveChildren_length registry append sc,
    resolveChildren_value registry append sc hwf, ?_⟩
  · simp [updateProjectorChildren, hfail]
  · simp only [updateProjectorChildren, hfail, Bool.false_eq_true, if_false]
    simp only [hproj]
    exact mapGet_mapSet_self _ _ _

/-- Witness for C6: children `[A,B]` reconciled with reversed completion
order `[1,0]` (B's resolution completes before A's). -/
theorem children_order_requested_witness :
    (updateProjectorChildren regAB scratchScene ⟨".1", 0⟩ ⟨0, ".0"⟩
        ["A", "B"] [1, 0]).snd = true ∧
    (resolveChildren regAB scratchScene ["A", "B"]).snd.length
      = (["A", "B"] : List Identifier).length ∧
    (∀ (n : Nat) (v : Identifier), (["A", "B"] : List Identifier)[n]? = some v →
      ∃ t : ChildTask,
        (resolveChildren regAB scratchScene ["A", "B"]).snd[n]? = some t ∧
        t.key.value = v) ∧
    mapGet 0 (updateProjectorChildren regAB scratchScene ⟨".1", 0⟩ ⟨0, ".0"⟩
        ["A", "B"] [1, 0]).fst.state.projectors
      = some { (⟨0, 0, []⟩ : ProjectorInst) with children :=
          ((resolveChildren regAB scratchScene ["A", "B"]).snd.map
            (fun t => t.taskWidget.getD 0)) } :=
  children_order_requested regAB scratchScene ⟨".1", 0⟩ ⟨0, ".0"⟩ ["A", "B"]
    [1, 0] ⟨0, 0, []⟩ (fun _ _ hk => Option.noConfusion hk) (by decide) (by decide)

/-- C3 (amended): requesting `[A,A]` with no cached instance for the
identifier invokes the registry resolve operation once per position that
observes the `widgets` cache empty — twice, not once; both positions share
the single Key allocated for the identifier, and the child collection holds
the instance produced by each respective call (these coincide only when the
registry returns the same instance on both calls); the cache retains the
instance of whichever resolution completed last. -/
theorem duplicate_resolution_per_position (registry : Registry) (i j : Nat)
    (hA0 : registry "A" 0 = some i) (hA1 : registry "A" 1 = some j) :
    (render registry 0 (SceneElement.projector ["A", "A"]) none [0, 1]).snd = true ∧
    ((render registry 0 (SceneElement.projector ["A", "A"]) none
        [0, 1]).fst.getD (initialScene 0)).resolveCalls = ["A", "A"] ∧
    mapGet "A" ((render registry 0 (SceneElement.projector ["A", "A"]) none
        [0, 1]).fst.getD (initialScene 0)).state.widgetKeys = some ⟨1, "A"⟩ ∧
    mapGet 0 ((render registry 0 (SceneElement.projector ["A", "A"]) none
        [0, 1]).fst.getD (initialScene 0)).state.projectors = some ⟨0, 0, [i, j]⟩ ∧
    mapGet 1 ((render registry 0 (SceneElement.projector ["A", "A"]) none
        [0, 1]).fst.getD (initialScene 0)).state.widgets = some j := by
  simp [render, update, updateProjectorChildren, resolveChildren, resolveChild,
    commitTasks, commitTask, anyFailed, taskFailed, destroyRemoved,
    Counter.incr, Counter.level, initialScene, mapGet, mapSet,
    ChildTask.key, ChildTask.taskWidget, hA0, hA1]

theorem duplicate_resolution_per_position_witness :
    (render regFresh 0 (SceneElement.projector ["A", "A"]) none [0, 1]).snd = true ∧
    ((render regFresh 0 (SceneElement.projector ["A", "A"]) none
        [0, 1]).fst.getD (initialScene 0)).resolveCalls = ["A", "A"] ∧
    mapGet "A" ((render regFresh 0 (SceneElement.projector ["A", "A"]) none
        [0, 1]).fst.getD (initialScene 0)).state.widgetKeys = some ⟨1, "A"⟩ ∧
    mapGet 0 ((render regFresh 0 (SceneElement.projector ["A", "A"]) none
        [0, 1]).fst.getD (initialScene 0)).state.projectors = some ⟨0, 0, [100, 101]⟩ ∧
    mapGet 1 ((render regFresh 0 (SceneElement.projector ["A", "A"]) none
        [0, 1]).fst.getD (initialScene 0)).state.widgets = some 101 :=
  duplicate_resolution_per_position regFresh 100 101 rfl rfl

theorem counter_incr_zero : Counter.incr ⟨"", 0⟩ = (".0", ⟨"", 1⟩) := rfl

theorem counter_level_one : Counter.level ⟨"", 1⟩ = ⟨".1", 0⟩ := rfl

set_option maxHeartbeats 2000000 in
/-- C4 (amended): when the resolution of an identifier fails, the failure
propagates to the caller of render (no attach happens), and no widget
instance and no handle are installed for it (`widgets` and `handles` have no
entry for its key) — but the Key itself remains installed in `widgetKeys`,
because it is stored synchronously before the registry is called.  The next
render that requests the identifier performs the full resolution again,
reusing that same Key. -/
theorem failed_resolution_not_cached_then_retried (registry : Registry) (w : Nat)
    (h0 : registry "A" 0 = none) (h1 : registry "A" 1 = some w) :
    (render registry 0 (SceneElement.projector ["A"]) none [0]).snd = false ∧
    ((render registry 0 (SceneElement.projector ["A"]) none
        [0]).fst.getD (initialScene 0)).resolveCalls = ["A"] ∧
    mapGet "A" ((render registry 0 (SceneElement.projector ["A"]) none
        [0]).fst.getD (initialScene 0)).state.widgetKeys = some ⟨1, "A"⟩ ∧
    mapGet 1 ((render registry 0 (SceneElement.projector ["A"]) none
        [0]).fst.getD (initialScene 0)).state.widgets = none ∧
    mapGet 1 ((render registry 0 (SceneElement.projector ["A"]) none
        [0]).fst.getD (initialScene 0)).state.handles = none ∧
    ((render registry 0 (SceneElement.projector ["A"]) none
        [0]).fst.getD (initialScene 0)).destroyed = [] ∧
    ((render registry 0 (SceneElement.projector ["A"]) none
        [0]).fst.getD (initialScene 0)).attached = [] ∧
    (render registry 0 (SceneElement.projector ["A"])
        (render registry 0 (SceneElement.projector ["A"]) none [0]).fst [0]).snd = true ∧
    ((render registry 0 (SceneElement.projector ["A"])
        (render registry 0 (SceneElement.projector ["A"]) none [0]).fst
        [0]).fst.getD (initialScene 0)).resolveCalls = ["A", "A"] ∧
    mapGet "A" ((render registry 0 (SceneElement.projector ["A"])
        (render registry 0 (SceneElement.projector ["A"]) none [0]).fst
        [0]).fst.getD (initialScene 0)).state.widgetKeys = some ⟨1, "A"⟩ ∧
    mapGet 1 ((render registry 0 (SceneElement.projector ["A"])
        (render registry 0 (SceneElement.projector ["A"]) none [0]).fst
        [0]).fst.getD (initialScene 0)).state.widgets = some w := by
  simp [render, update, updateProjectorChildren, resolveChildren, resolveChild,
    commitTasks, commitTask, anyFailed, taskFailed, destroyRemoved,
    counter_incr_zero, counter_level_one, initialScene, mapGet, mapSet,
    ChildTask.key, ChildTask.taskWidget, h0, h1]

theorem failed_resolution_not_cached_then_retried_witness :
    (render regFailThenOk 0 (SceneElement.projector ["A"]) none [0]).snd = false ∧
    ((render regFailThenOk 0 (SceneElement.projector ["A"]) none
        [0]).fst.getD (initialScene 0)).resolveCalls = ["A"] ∧
    mapGet "A" ((render regFailThenOk 0 (SceneElement.projector ["A"]) none
        [0]).fst.getD (initialScene 0)).state.widgetKeys = some ⟨1, "A"⟩ ∧
    mapGet 1 ((render regFailThenOk 0 (SceneElement.projector ["A"]) none
        [0]).fst.getD (initialScene 0)).state.widgets = none ∧
    mapGet 1 ((render regFailThenOk 0 (SceneElement.projector ["A"]) none
        [0]).fst.getD (initialScene 0)).state.handles = none ∧
    ((render regFailThenOk 0 (SceneElement.projector ["A"]) none
        [0]).fst.getD (initialScene 0)).destroyed = [] ∧
    ((render regFailThenOk 0 (SceneElement.projector ["A"]) none
        [0]).fst.getD (initialScene 0)).attached = [] ∧
    (render regFailThenOk 0 (SceneElement.projector ["A"])
        (render regFailThenOk 0 (SceneElement.projector ["A"]) none [0]).fst
        [0]).snd = true ∧
    ((render regFailThenOk 0 (SceneElement.projector ["A"])
        (render regFailThenOk 0 (SceneElement.projector ["A"]) none [0]).fst
        [0]).fst.getD (initialScene 0)).resolveCalls = ["A", "A"] ∧
    mapGet "A" ((render regFailThenOk 0 (SceneElement.projector ["A"])
        (render regFailThenOk 0 (SceneElement.projector ["A"]) none [0]).fst
        [0]).fst.getD (initialScene 0)).state.widgetKeys = some ⟨1, "A"⟩ ∧
    mapGet 1 ((render regFailThenOk 0 (SceneElement.projector ["A"])
        (render regFailThenOk 0 (SceneElement.projector ["A"]) none [0]).fst
        [0]).fst.getD (initialScene 0)).state.widgets = some 7 :=
  failed_resolution_not_cached_then_retried regFailThenOk 7 rfl rfl

set_option maxHeartbeats 1000000 in
/-- C8 (amended): after a successful render of `[Projector → [A,B]]`,
invoking the returned composite handle destroys the widget instances of A
and B exactly once each, and removes the projector key — but the projector
instance is never destroyed (its `destroy()` is never invoked by any code
path). -/
theorem teardown_destroys_each_widget_once (registry : Registry) (ia ib : Nat)
    (hA : registry "A" 0 = some ia) (hB : registry "B" 1 = some ib)
    (hne : ia ≠ ib) :
    (render registry 0 (SceneElement.projector ["A", "B"]) none [0, 1]).snd = true ∧
    mapGet 0 ((render registry 0 (SceneElement.projector ["A", "B"]) none
        [0, 1]).fst.getD (initialScene 0)).state.projectors = some ⟨0, 0, [ia, ib]⟩ ∧
    (renderHandleDestroy ((render registry 0 (SceneElement.projector ["A", "B"]) none
        [0, 1]).fst.getD (initialScene 0))).destroyed = [ia, ib] ∧
    (renderHandleDestroy ((render registry 0 (SceneElement.projector ["A", "B"]) none
        [0, 1]).fst.getD (initialScene 0))).destroyed.count ia = 1 ∧
    (renderHandleDestroy ((render registry 0 (SceneElement.projector ["A", "B"]) none
        [0, 1]).fst.getD (initialScene 0))).destroyed.count ib = 1 ∧
    (renderHandleDestroy ((render registry 0 (SceneElement.projector ["A", "B"]) none
        [0, 1]).fst.getD (initialScene 0))).destroyedProjectors = [] := by
  simp [render, update, updateProjectorChildren, resolveChildren, resolveChild,
    commitTasks, commitTask, anyFailed, taskFailed, destroyRemoved,
    counter_incr_zero, counter_level_one, initialScene, mapGet, mapSet, mapDelete,
    renderHandleDestroy, applyHandle,
    ChildTask.key, ChildTask.taskWidget, hA, hB, List.count_cons, hne, Ne.symm hne]

theorem teardown_destroys_each_widget_once_witness :
    (render regAB 0 (SceneElement.projector ["A", "B"]) none [0, 1]).snd = true ∧
    mapGet 0 ((render regAB 0 (SceneElement.projector ["A", "B"]) none
        [0, 1]).fst.getD (initialScene 0)).state.projectors = some ⟨0, 0, [10, 11]⟩ ∧
    (renderHandleDestroy ((render regAB 0 (SceneElement.projector ["A", "B"]) none
        [0, 1]).fst.getD (initialScene 0))).destroyed = [10, 11] ∧
    (renderHandleDestroy ((render regAB 0 (SceneElement.projector ["A", "B"]) none
        [0, 1]).fst.getD (initialScene 0))).destroyed.count 10 = 1 ∧
    (renderHandleDestroy ((render regAB 0 (SceneElement.projector ["A", "B"]) none
        [0, 1]).fst.getD (initialScene 0))).destroyed.count 11 = 1 ∧
    (renderHandleDestroy ((render regAB 0 (SceneElement.projector ["A", "B"]) none
        [0, 1]).fst.getD (initialScene 0))).destroyedProjectors = [] :=
  teardown_destroys_each_widget_once regAB 10 11 rfl rfl (by decide)

set_option maxHeartbeats 1000000 in
/-- Characterization of a render of `[A,B]` from scratch in which A resolves
to `ia` and the resolution of B is rejected: the render fails and the state
is `failedScene ia`. -/
theorem render_AB_first_fails (registry : Registry) (ia : Nat)
    (hA : registry "A" 0 = some ia) (hB1 : registry "B" 1 = none) :
    render registry 0 (SceneElement.projector ["A", "B"]) none [0, 1]
      = (some (failedScene ia), false) := by
  simp [render, update, updateProjectorChildren, resolveChildren, resolveChild,
    commitTasks, commitTask, anyFailed, taskFailed, destroyRemoved,
    counter_incr_zero, counter_level_one, initialScene, mapGet, mapSet,
    ChildTask.key, ChildTask.taskWidget, hA, hB1, failedScene]

set_option maxHeartbeats 1000000 in
/-- C10: when the resolution of B fails during a render of `[A,B]`, the
sibling A that resolved successfully keeps its newly created entries in
`widgetKeys`, `widgets` and `handles` (the failed render is not atomic with
respect to the resolution cache, and nothing is destroyed), and a subsequent
render of `[A,B]` reuses the cached instance of A without re-resolving it:
only B is resolved again. -/
theorem failed_sibling_kept_and_reused (registry : Registry) (ia ib : Nat)
    (hA : registry "A" 0 = some ia) (hB1 : registry "B" 1 = none)
    (hB2 : registry "B" 2 = some ib) :
    (render registry 0 (SceneElement.projector ["A", "B"]) none [0, 1]).snd = false ∧
    (failedScene ia).resolveCalls = ["A", "B"] ∧
    mapGet "A" (failedScene ia).state.widgetKeys = some ⟨1, "A"⟩ ∧
    mapGet 1 (failedScene ia).state.widgets = some ia ∧
    mapGet 1 (failedScene ia).state.handles = some (Handle.widgetHandle ia "A") ∧
    (failedScene ia).destroyed = [] ∧
    (render registry 0 (SceneElement.projector ["A", "B"])
        (render registry 0 (SceneElement.projector ["A", "B"]) none [0, 1]).fst
        [0, 1]).snd = true ∧
    ((render registry 0 (SceneElement.projector ["A", "B"])
        (render registry 0 (SceneElement.projector ["A", "B"]) none [0, 1]).fst
        [0, 1]).fst.getD (initialScene 0)).resolveCalls = ["A", "B", "B"] ∧
    mapGet 1 ((render registry 0 (SceneElement.projector ["A", "B"])
        (render registry 0 (SceneElement.projector ["A", "B"]) none [0, 1]).fst
        [0, 1]).fst.getD (initialScene 0)).state.widgets = some ia ∧
    mapGet 0 ((render registry 0 (SceneElement.projector ["A", "B"])
        (render registry 0 (SceneElement.projector ["A", "B"]) none [0, 1]).fst
        [0, 1]).fst.getD (initialScene 0)).state.projectors = some ⟨0, 0, [ia, ib]⟩ := by
  rw [render_AB_first_fails registry ia hA hB1]
  refine ⟨rfl, rfl, by simp [failedScene, mapGet], by simp [failedScene, mapGet],
    by simp [failedScene, mapGet], rfl, ?_⟩
  simp [render, update, updateProjectorChildren, resolveChildren, resolveChild,
    commitTasks, commitTask, anyFailed, taskFailed, destroyRemoved,
    counter_incr_zero, counter_level_one, initialScene, mapGet, mapSet,
    ChildTask.key, ChildTask.taskWidget, hB2, failedScene]

theorem failed_sibling_kept_and_reused_witness :
    (render regBFailOnce 0 (SceneElement.projector ["A", "B"]) none [0, 1]).snd = false ∧
    ((render regBFailOnce 0 (SceneElement.projector ["A", "B"]) none
        [0, 1]).fst.getD (initialScene 0)).resolveCalls = ["A", "B"] ∧
    mapGet "A" ((render regBFailOnce 0 (SceneElement.projector ["A", "B"]) none
        [0, 1]).fst.getD (initialScene 0)).state.widgetKeys = some ⟨1, "A"⟩ ∧
    mapGet 1 ((render regBFailOnce 0 (SceneElement.projector ["A", "B"]) none
        [0, 1]).fst.getD (initialScene 0)).state.widgets = some 100 ∧
    mapGet 1 ((render regBFailOnce 0 (SceneElement.projector ["A", "B"]) none
        [0, 1]).fst.getD (initialScene 0)).state.handles
      = some (Handle.widgetHandle 100 "A") ∧
    ((render regBFailOnce 0 (SceneElement.projector ["A", "B"]) none
        [0, 1]).fst.getD (initialScene 0)).destroyed = [] ∧
    (render regBFailOnce 0 (SceneElement.projector ["A", "B"])
        (render regBFailOnce 0 (SceneElement.projector ["A", "B"]) none [0, 1]).fst
        [0, 1]).snd = true ∧
    ((render regBFailOnce 0 (SceneElement.projector ["A", "B"])
        (render regBFailOnce 0 (SceneElement.projector ["A", "B"]) none [0, 1]).fst
        [0, 1]).fst.getD (initialScene 0)).resolveCalls = ["A", "B", "B"] ∧
    mapGet 1 ((render regBFailOnce 0 (SceneElement.projector ["A", "B"])
        (render regBFailOnce 0 (SceneElement.projector ["A", "B"]) none [0, 1]).fst
        [0, 1]).fst.getD (initialScene 0)).state.widgets = some 100 ∧
    mapGet 0 ((render regBFailOnce 0 (SceneElement.projector ["A", "B"])
        (render regBFailOnce 0 (SceneElement.projector ["A", "B"]) none [0, 1]).fst
        [0, 1]).fst.getD (initialScene 0)).state.projectors = some ⟨0, 0, [100, 102]⟩ :=
  failed_sibling_kept_and_reused regBFailOnce 100 102 rfl rfl rfl

theorem resolveChild_fresh_eq (registry : Registry) (sc : Scene) (v : Identifier)
    (hfresh : mapGet v sc.state.widgetKeys = none)
    (hwid : sc.state.widgets = []) :
    resolveChild registry sc v =
      ({ sc with
          nextKey := sc.nextKey + 1,
          resolveCalls := sc.resolveCalls ++ [v],
          state := { sc.state with
            widgetKeys := mapSet v ⟨sc.nextKey, v⟩ sc.state.widgetKeys } },
       ChildTask.pending ⟨sc.nextKey, v⟩ (registry v sc.resolveCalls.length)) := by
  simp [resolveChild, hfresh, hwid, mapGet]

theorem resolveChild_cached_eq (registry : Registry) (sc : Scene)
    (v : Identifier) (k : Key) (w : Nat)
    (hk : mapGet v sc.state.widgetKeys = some k)
    (hw : mapGet k.id sc.state.widgets = some w) :
    resolveChild registry sc v = (sc, ChildTask.cached k w) := by
  simp [resolveChild, hk, hw]

theorem resolveChildren_fresh (registry : Registry) (append : List Identifier)
    (sc : Scene) (hnd : append.Nodup)
    (hfresh : ∀ v ∈ append, mapGet v sc.state.widgetKeys = none)
    (hwid : sc.state.widgets = []) :
    (∀ (n : Nat) (v : Identifier), append[n]? = some v →
        (resolveChildren registry sc append).snd[n]?
          = some (ChildTask.pending ⟨sc.nextKey + n, v⟩
              (registry v (sc.resolveCalls.length + n)))) ∧
    (resolveChildren registry sc append).fst.resolveCalls
        = sc.resolveCalls ++ append ∧
    (∀ (n : Nat) (v : Identifier), append[n]? = some v →
        mapGet v (resolveChildren registry sc append).fst.state.widgetKeys
          = some ⟨sc.nextKey + n, v⟩) := by
  induction append generalizing sc with
  | nil =>
    refine ⟨?_, by simp [resolveChildren], ?_⟩ <;> intro n v h <;> simp at h
  | cons u rest ih =>
    have hu : mapGet u sc.state.widgetKeys = none := hfresh u (by simp)
    have heq := resolveChild_fresh_eq registry sc u hu hwid
    set sc' : Scene :=
      { sc with
          nextKey := sc.nextKey + 1,
          resolveCalls := sc.resolveCalls ++ [u],
          state := { sc.state with
            widgetKeys := mapSet u ⟨sc.nextKey, u⟩ sc.state.widgetKeys } } with hsc'
    have hfresh' : ∀ v ∈ rest, mapGet v sc'.state.widgetKeys = none := by
      intro v hv
      have hvu : u ≠ v := by
        rintro rfl
        exact (List.nodup_cons.mp hnd).1 hv
      rw [hsc']
      simpa [mapGet_mapSet_ne _ _ hvu] using hfresh v (by simp [hv])
    have hwid' : sc'.state.widgets = [] := by rw [hsc']; simpa using hwid
    obtain ⟨ih1, ih2, ih3⟩ := ih sc' (List.nodup_cons.mp hnd).2 hfresh' hwid'
    have hres : resolveChildren registry sc (u :: rest)
        = ((resolveChildren registry sc' rest).fst,
           ChildTask.pending ⟨sc.nextKey, u⟩ (registry u sc.resolveCalls.length)
             :: (resolveChildren registry sc' rest).snd) := by
      simp only [resolveChildren, heq]
    refine ⟨?_, ?_, ?_⟩
    · intro n v h
      cases n with
      | zero =>
        simp at h
        subst h
        simp [hres]
      | succ m =>
        simp at h
        have := ih1 m v h
        rw [hres]
        simpa [hsc', Nat.add_assoc, Nat.add_comm 1 m, Nat.add_left_comm] using this
    · rw [hres]
      rw [ih2]
      simp [hsc']
    · intro n v h
      cases n with
      | zero =>
        simp at h
        subst h
        rw [hres]
        have hbase : mapGet u sc'.state.widgetKeys = some ⟨sc.nextKey, u⟩ := by
          rw [hsc']
          simpa using mapGet_mapSet_self u (⟨sc.nextKey, u⟩ : Key) sc.state.widgetKeys
        simpa using resolveChildren_widgetKeys_mono registry rest sc' hbase
      | succ m =>
        simp at h
        have := ih3 m v h
        rw [hres]
        simpa [hsc', Nat.add_assoc, Nat.add_comm 1 m, Nat.add_left_comm] using this

theorem resolveChildren_cached (registry : Registry) (append : List Identifier)
    (sc : Scene)
    (hc : ∀ v ∈ append, ∃ k w, mapGet v sc.state.widgetKeys = some k ∧
        mapGet k.id sc.state.widgets = some w) :
    (resolveChildren registry sc append).fst = sc ∧
    ∀ (n : Nat) (v : Identifier), append[n]? = some v →
      ∃ k w, (resolveChildren registry sc append).snd[n]?
          = some (ChildTask.cached k w) ∧
        mapGet v sc.state.widgetKeys = some k ∧
        mapGet k.id sc.state.widgets = some w := by
  induction append with
  | nil =>
    refine ⟨by simp [resolveChildren], ?_⟩
    intro n v h; simp at h
  | cons u rest ih =>
    obtain ⟨k, w, hk, hw⟩ := hc u (by simp)
    have heq := resolveChild_cached_eq registry sc u k w hk hw
    obtain ⟨ih1, ih2⟩ := ih (fun v hv => hc v (by simp [hv]))
    have hres : resolveChildren registry sc (u :: rest)
        = ((resolveChildren registry sc rest).fst,
           ChildTask.cached k w :: (resolveChildren registry sc rest).snd) := by
      simp only [resolveChildren, heq]
    refine ⟨by rw [hres]; simpa using ih1, ?_⟩
    intro n v h
    cases n with
    | zero =>
      simp at h
      subst h
      exact ⟨k, w, by simp [hres], hk, hw⟩
    | succ m =>
      simp at h
      obtain ⟨k', w', ht, hk', hw'⟩ := ih2 m v h
      exact ⟨k', w', by rw [hres]; simpa using ht, hk', hw'⟩

theorem commitTasks_widgets_preserve (tasks : List ChildTask) (order : List Nat)
    (sc : Scene) (k : Key) (w : Nat)
    (huniq : ∀ (j : Nat) (t : ChildTask), tasks[j]? = some t →
        t.key.id = k.id → t = ChildTask.pending k (some w))
    (hw : mapGet k.id sc.state.widgets = some w)
    (hh : mapGet k.id sc.state.handles = some (Handle.widgetHandle w k.value)) :
    mapGet k.id (commitTasks tasks order sc).state.widgets = some w ∧
    mapGet k.id (commitTasks tasks order sc).state.handles
      = some (Handle.widgetHandle w k.value) := by
  induction order generalizing sc with
  | nil => exact ⟨hw, hh⟩
  | cons j rest ih =>
    simp only [commitTasks]
    cases hj : tasks[j]? with
    | none => exact ih sc hw hh
    | some t =>
      by_cases ht : t.key.id = k.id
      · have := huniq j t hj ht
        subst this
        refine ih _ ?_ ?_ <;>
          simp [commitTask, mapGet_mapSet_self]
      · cases t with
        | cached k' w' => exact ih _ hw hh
        | pending k' out =>
          cases out with
          | none => exact ih _ hw hh
          | some w' =>
            have hne : k'.id ≠ k.id := by simpa [ChildTask.key] using ht
            refine ih _ ?_ ?_ <;>
              simp [commitTask, mapGet_mapSet_ne _ _ hne, hw, hh]

theorem commitTasks_widgets_unique (tasks : List ChildTask) (order : List Nat)
    (sc : Scene) (k : Key) (w : Nat)
    (huniq : ∀ (j : Nat) (t : ChildTask), tasks[j]? = some t →
        t.key.id = k.id → t = ChildTask.pending k (some w))
    (hmem : ∃ i, i ∈ order ∧ tasks[i]? = some (ChildTask.pending k (some w))) :
    mapGet k.id (commitTasks tasks order sc).state.widgets = some w ∧
    mapGet k.id (commitTasks tasks order sc).state.handles
      = some (Handle.widgetHandle w k.value) := by
  induction order generalizing sc with
  | nil =>
    obtain ⟨i, hi, _⟩ := hmem
    simp at hi
  | cons j rest ih =>
    obtain ⟨i, hi, hti⟩ := hmem
    simp only [commitTasks]
    cases hj : tasks[j]? with
    | none =>
      have hij : i ≠ j := by rintro rfl; rw [hj] at hti; exact Option.noConfusion hti
      exact ih sc ⟨i, by rcases List.mem_cons.mp hi with h | h; exact absurd h hij; exact h, hti⟩
    | some t =>
      by_cases ht : t.key.id = k.id
      · have := huniq j t hj ht
        subst this
        refine commitTasks_widgets_preserve tasks rest _ k w huniq ?_ ?_ <;>
          simp [commitTask, mapGet_mapSet_self]
      · have hij : i ≠ j := by
          rintro rfl
          rw [hj] at hti
          cases hti
          simp [ChildTask.key] at ht
        exact ih _ ⟨i, by rcases List.mem_cons.mp hi with h | h; exact absurd h hij; exact h, hti⟩

theorem commitTasks_cached_id (tasks : List ChildTask) (order : List Nat)
    (sc : Scene)
    (hc : ∀ (j : Nat) (t : ChildTask), tasks[j]? = some t →
        ∃ k w, t = ChildTask.cached k w) :
    commitTasks tasks order sc = sc := by
  induction order generalizing sc with
  | nil => rfl
  | cons j rest ih =>
    simp only [commitTasks]
    cases hj : tasks[j]? with
    | none => exact ih sc
    | some t =>
      obtain ⟨k, w, rfl⟩ := hc j t hj
      exact ih sc

theorem anyFailed_false_of_forall (tasks : List ChildTask)
    (h : ∀ (j : Nat) (t : ChildTask), tasks[j]? = some t → taskFailed t = false) :
    anyFailed tasks = false := by
  unfold anyFailed
  rw [List.any_eq_false]
  intro t ht
  obtain ⟨n, hn⟩ := List.mem_iff_getElem?.mp ht
  simp [h n t hn]

theorem lt_length_of_getElem?_some {α : Type} {l : List α} {n : Nat} {v : α}
    (h : l[n]? = some v) : n < l.length := by
  by_contra hge
  rw [List.getElem?_eq_none (Nat.le_of_not_lt hge)] at h
  exact Option.noConfusion h

theorem update_initial (registry : Registry) (append : List Identifier)
    (order : List Nat) :
    update registry (initialScene 0) ⟨"", 0⟩ append order
      = (if (updateProjectorChildren registry scratchScene ⟨".1", 0⟩ ⟨0, ".0"⟩
              append order).snd
         then ({ (updateProjectorChildren registry scratchScene ⟨".1", 0⟩ ⟨0, ".0"⟩
                    append order).fst with
                  attached := (updateProjectorChildren registry scratchScene
                    ⟨".1", 0⟩ ⟨0, ".0"⟩ append order).fst.attached ++ [0] }, true)
         else ((updateProjectorChildren registry scratchScene ⟨".1", 0⟩ ⟨0, ".0"⟩
                  append order).fst, false)) := by
  simp [update, counter_incr_zero, counter_level_one, initialScene, scratchScene,
    mapGet, mapSet]

theorem update_existing (registry : Registry) (sc : Scene)
    (append : List Identifier) (order : List Nat) (k : Key) (proj : ProjectorInst)
    (hk : mapGet ".0" sc.state.projectorKeys = some k)
    (hproj : mapGet k.id sc.state.projectors = some proj) :
    update registry sc ⟨"", 0⟩ append order
      = (if (updateProjectorChildren registry sc ⟨".1", 0⟩ k append order).snd
         then ({ (updateProjectorChildren registry sc ⟨".1", 0⟩ k
                    append order).fst with
                  attached := (updateProjectorChildren registry sc ⟨".1", 0⟩ k
                    append order).fst.attached ++ [proj.pid] }, true)
         else ((updateProjectorChildren registry sc ⟨".1", 0⟩ k append order).fst,
               false)) := by
  simp [update, counter_incr_zero, counter_level_one, hk, hproj]

theorem updateProjectorChildren_success (registry : Registry) (sc : Scene)
    (c : Counter) (pk : Key) (append : List Identifier) (order : List Nat)
    (proj : ProjectorInst)
    (hnofail : anyFailed (resolveChildren registry sc append).snd = false)
    (hch : mapGet pk.id (commitTasks (resolveChildren registry sc append).snd
        order (resolveChildren registry sc append).fst).state.children = some [])
    (hpj : mapGet pk.id (commitTasks (resolveChildren registry sc append).snd
        order (resolveChildren registry sc append).fst).state.projectors
      = some proj) :
    updateProjectorChildren registry sc c pk append order
      = ({ (commitTasks (resolveChildren registry sc append).snd order
              (resolveChildren registry sc append).fst) with
            state := { (commitTasks (resolveChildren registry sc append).snd order
                (resolveChildren registry sc append).fst).state with
              projectors := mapSet pk.id
                { proj with children :=
                    ((resolveChildren registry sc append).snd.map
                      (fun t => t.taskWidget.getD 0)) }
                (commitTasks (resolveChildren registry sc append).snd order
                  (resolveChildren registry sc append).fst).state.projectors } },
         true) := by
  simp only [updateProjectorChildren, hnofail, Bool.false_eq_true, if_false,
    hch, hpj, Option.getD_some, destroyRemoved]

theorem first_render_spec (registry : Registry) (append : List Identifier)
    (order : List Nat) (hnd : append.Nodup)
    (hsucc : ∀ (n : Nat) (v : Identifier), append[n]? = some v →
        (registry v n).isSome = true)
    (horder : ∀ i : Nat, i < append.length → i ∈ order) :
    ∃ sc₁ : Scene,
      render registry 0 (SceneElement.projector append) none order
        = (some sc₁, true) ∧
      mapGet ".0" sc₁.state.projectorKeys = some ⟨0, ".0"⟩ ∧
      mapGet 0 sc₁.state.children = some [] ∧
      sc₁.resolveCalls = append ∧
      (∀ (n : Nat) (v : Identifier), append[n]? = some v →
        mapGet v sc₁.state.widgetKeys = some ⟨1 + n, v⟩ ∧
        mapGet (1 + n) sc₁.state.widgets = registry v n ∧
        mapGet (1 + n) sc₁.state.handles
          = (registry v n).map (fun w => Handle.widgetHandle w v)) ∧
      ∃ ws : List Nat, mapGet 0 sc₁.state.projectors = some ⟨0, 0, ws⟩ ∧
        ws.length = append.length ∧
        (∀ (n : Nat) (v : Identifier), append[n]? = some v → ws[n]? = registry v n) := by
  obtain ⟨htask, hcalls, hwkeys⟩ := resolveChildren_fresh registry append scratchScene
    hnd (fun v _ => rfl) rfl
  have hkey1 : scratchScene.nextKey = 1 := rfl
  have hcalls0 : scratchScene.resolveCalls = [] := rfl
  rw [hkey1] at hwkeys
  rw [hkey1, hcalls0] at htask
  rw [hcalls0, List.nil_append] at hcalls
  simp only [List.length_nil, Nat.zero_add] at htask
  have hlen : (resolveChildren registry scratchScene append).snd.length
      = append.length := resolveChildren_length registry append scratchScene
  have hframe := resolveChildren_frame registry append scratchScene
  have hcframe := commitTasks_frame (resolveChildren registry scratchScene append).snd
    order (resolveChildren registry scratchScene append).fst
  -- no resolution fails
  have hnofail : anyFailed (resolveChildren registry scratchScene append).snd = false := by
    apply anyFailed_false_of_forall
    intro j t hjt
    have hj : j < append.length := by
      have := lt_length_of_getElem?_some hjt
      rwa [hlen] at this
    have hv : append[j]? = some append[j] := List.getElem?_eq_getElem hj
    have hteq := htask j append[j] hv
    rw [hjt] at hteq
    obtain ⟨w, hw⟩ := Option.isSome_iff_exists.mp (hsucc j append[j] hv)
    cases Option.some.inj hteq
    simp [taskFailed, hw]
  -- the children entry for the projector key after the commits
  have hchC : mapGet 0 (commitTasks (resolveChildren registry scratchScene append).snd
      order (resolveChildren registry scratchScene append).fst).state.children
      = some [] := by
    rw [hcframe.2.2.2.1, hframe.2.2.2.1]
    rfl
  have hpjC : mapGet 0 (commitTasks (resolveChildren registry scratchScene append).snd
      order (resolveChildren registry scratchScene append).fst).state.projectors
      = some ⟨0, 0, []⟩ := by
    rw [hcframe.2.2.1, hframe.2.2.1]
    rfl
  have hupc := updateProjectorChildren_success registry scratchScene ⟨".1", 0⟩
    ⟨0, ".0"⟩ append order ⟨0, 0, []⟩ hnofail hchC hpjC
  have hupd := update_initial registry append order
  rw [hupc] at hupd
  simp only [if_true] at hupd
  refine ⟨(update registry (initialScene 0) ⟨"", 0⟩ append order).fst,
    ?_, ?_, ?_, ?_, ?_, ?_⟩
  · simp only [render, Option.getD_none, hupd]
  · simp only [hupd, hcframe.2.1, hframe.2.1]
    rfl
  · simp only [hupd]
    simpa using hchC
  · simp only [hupd, hcframe.2.2.2.2.2.2.2.1]
    simpa using hcalls
  · intro n v hv
    have hnlt : n < append.length := lt_length_of_getElem?_some hv
    obtain ⟨w, hw⟩ := Option.isSome_iff_exists.mp (hsucc n v hv)
    have huniq : ∀ (j : Nat) (t : ChildTask),
        (resolveChildren registry scratchScene append).snd[j]? = some t →
        t.key.id = (⟨1 + n, v⟩ : Key).id →
        t = ChildTask.pending ⟨1 + n, v⟩ (some w) := by
      intro j t hjt hid
      have hj : j < append.length := by
        have := lt_length_of_getElem?_some hjt
        rwa [hlen] at this
      have hv' : append[j]? = some append[j] := List.getElem?_eq_getElem hj
      have hteq := htask j append[j] hv'
      rw [hjt] at hteq
      cases Option.some.inj hteq
      simp only [ChildTask.key] at hid
      have hjn : j = n := by omega
      subst hjn
      have : append[j] = v := by
        rw [hv'] at hv
        exact Option.some.inj hv
      subst this
      rw [hw]
    have hmem : ∃ i, i ∈ order ∧
        (resolveChildren registry scratchScene append).snd[i]?
          = some (ChildTask.pending ⟨1 + n, v⟩ (some w)) := by
      refine ⟨n, horder n hnlt, ?_⟩
      rw [htask n v hv, hw]
    have hcommit := commitTasks_widgets_unique
      (resolveChildren registry scratchScene append).snd order
      (resolveChildren registry scratchScene append).fst ⟨1 + n, v⟩ w huniq hmem
    refine ⟨?_, ?_, ?_⟩
    · simp only [hupd]
      exact hcframe.2.2.2.2.1 ▸ hwkeys n v hv
    · simp only [hupd, hw]
      exact hcommit.1
    · simp only [hupd, hw]
      exact hcommit.2
  · refine ⟨(resolveChildren registry scratchScene append).snd.map
      (fun t => t.taskWidget.getD 0), ?_, ?_, ?_⟩
    · simp only [hupd]
      exact mapGet_mapSet_self _ _ _
    · rw [List.length_map, hlen]
    · intro n v hv
      obtain ⟨w, hw⟩ := Option.isSome_iff_exists.mp (hsucc n v hv)
      rw [List.getElem?_map, htask n v hv, hw]
      rfl

theorem second_render_spec (registry : Registry) (append : List Identifier)
    (order : List Nat) (sc : Scene) (ws : List Nat) (kf : Nat → Key)
    (wf : Nat → Nat)
    (hpk : mapGet ".0" sc.state.projectorKeys = some ⟨0, ".0"⟩)
    (hpj : mapGet 0 sc.state.projectors = some ⟨0, 0, ws⟩)
    (hch : mapGet 0 sc.state.children = some [])
    (hcache : ∀ (n : Nat) (v : Identifier), append[n]? = some v →
        mapGet v sc.state.widgetKeys = some (kf n) ∧
        mapGet (kf n).id sc.state.widgets = some (wf n)) :
    ∃ sc₂ : Scene,
      render registry 0 (SceneElement.projector append) (some sc) order
        = (some sc₂, true) ∧
      sc₂.state.widgetKeys = sc.state.widgetKeys ∧
      sc₂.state.widgets = sc.state.widgets ∧
      sc₂.state.handles = sc.state.handles ∧
      sc₂.resolveCalls = sc.resolveCalls ∧
      sc₂.destroyed = sc.destroyed ∧
      ∃ ws₂ : List Nat, mapGet 0 sc₂.state.projectors = some ⟨0, 0, ws₂⟩ ∧
        ws₂.length = append.length ∧
        ∀ (n : Nat) (v : Identifier), append[n]? = some v → ws₂[n]? = some (wf n) := by
  have hc : ∀ v ∈ append, ∃ k w, mapGet v sc.state.widgetKeys = some k ∧
      mapGet k.id sc.state.widgets = some w := by
    intro v hv
    obtain ⟨n, hn⟩ := List.mem_iff_getElem?.mp hv
    exact ⟨kf n, wf n, (hcache n v hn).1, (hcache n v hn).2⟩
  obtain ⟨hfst, htask⟩ := resolveChildren_cached registry append sc hc
  have hlen : (resolveChildren registry sc append).snd.length = append.length :=
    resolveChildren_length registry append sc
  -- all tasks are cached, so nothing fails and the commits are no-ops
  have hcached_all : ∀ (j : Nat) (t : ChildTask),
      (resolveChildren registry sc append).snd[j]? = some t →
      ∃ k w, t = ChildTask.cached k w := by
    intro j t hjt
    have hj : j < append.length := by
      have := lt_length_of_getElem?_some hjt
      rwa [hlen] at this
    have hv : append[j]? = some append[j] := List.getElem?_eq_getElem hj
    obtain ⟨k, w, ht, _, _⟩ := htask j append[j] hv
    rw [hjt] at ht
    exact ⟨k, w, Option.some.inj ht⟩
  have hnofail : anyFailed (resolveChildren registry sc append).snd = false := by
    apply anyFailed_false_of_forall
    intro j t hjt
    obtain ⟨k, w, rfl⟩ := hcached_all j t hjt
    rfl
  have hcommit : commitTasks (resolveChildren registry sc append).snd order
      (resolveChildren registry sc append).fst
      = (resolveChildren registry sc append).fst :=
    commitTasks_cached_id _ _ _ hcached_all
  have hchC : mapGet (⟨0, ".0"⟩ : Key).id (commitTasks
      (resolveChildren registry sc append).snd order
      (resolveChildren registry sc append).fst).state.children = some [] := by
    rw [hcommit, hfst]
    exact hch
  have hpjC : mapGet (⟨0, ".0"⟩ : Key).id (commitTasks
      (resolveChildren registry sc append).snd order
      (resolveChildren registry sc append).fst).state.projectors
      = some ⟨0, 0, ws⟩ := by
    rw [hcommit, hfst]
    exact hpj
  have hupc := updateProjectorChildren_success registry sc ⟨".1", 0⟩ ⟨0, ".0"⟩
    append order ⟨0, 0, ws⟩ hnofail hchC hpjC
  rw [hcommit, hfst] at hupc
  have hupd := update_existing registry sc append order ⟨0, ".0"⟩ ⟨0, 0, ws⟩ hpk hpj
  rw [hupc] at hupd
  simp only [if_true] at hupd
  refine ⟨(update registry sc ⟨"", 0⟩ append order).fst,
    ?_, ?_, ?_, ?_, ?_, ?_, ?_⟩
  · simp only [render, Option.getD_some, hupd]
  · simp only [hupd]
  · simp only [hupd]
  · simp only [hupd]
  · simp only [hupd]
  · simp only [hupd]
  · refine ⟨(resolveChildren registry sc append).snd.map
      (fun t => t.taskWidget.getD 0), ?_, ?_, ?_⟩
    · simp only [hupd]
      exact mapGet_mapSet_self _ _ _
    · rw [List.length_map, hlen]
    · intro n v hv
      obtain ⟨k, w, ht, hk, hw⟩ := htask n v hv
      have hkk : k = kf n := by
        have := (hcache n v hv).1
        rw [hk] at this
        exact Option.some.inj this
      subst hkk
      have hww : w = wf n := by
        have := (hcache n v hv).2
        rw [hw] at this
        exact Option.some.inj this
      subst hww
      rw [List.getElem?_map, ht]
      rfl

/-- C7 (amended): for every tree whose widget identifiers are pairwise
distinct, rendering it twice unchanged against the same registry succeeds
both times, the registry resolve operation is invoked exactly once per
identifier across the two renders (all during the first; the second render
is a pure cache hit), every identifier maps to the same Key and the same
widget instance on both renders, and the projector receives the same child
collection both times (for any completion orders). -/
theorem identity_stability_distinct (registry : Registry)
    (append : List Identifier) (order₁ order₂ : List Nat)
    (hnd : append.Nodup)
    (hsucc : ∀ (n : Nat) (v : Identifier), append[n]? = some v →
        (registry v n).isSome = true)
    (horder : ∀ i : Nat, i < append.length → i ∈ order₁) :
    ∃ sc₁ sc₂ : Scene,
      render registry 0 (SceneElement.projector append) none order₁
        = (some sc₁, true) ∧
      render registry 0 (SceneElement.projector append) (some sc₁) order₂
        = (some sc₂, true) ∧
      sc₁.resolveCalls = append ∧
      sc₂.resolveCalls = append ∧
      (∀ v ∈ append, sc₂.resolveCalls.count v = 1) ∧
      sc₂.state.widgetKeys = sc₁.state.widgetKeys ∧
      sc₂.state.widgets = sc₁.state.widgets ∧
      (∀ (n : Nat) (v : Identifier), append[n]? = some v →
        ∃ w : Nat, registry v n = some w ∧
          mapGet v sc₁.state.widgetKeys = some ⟨1 + n, v⟩ ∧
          mapGet (1 + n) sc₁.state.widgets = some w ∧
          mapGet v sc₂.state.widgetKeys = some ⟨1 + n, v⟩ ∧
          mapGet (1 + n) sc₂.state.widgets = some w) ∧
      ∃ ws : List Nat, mapGet 0 sc₁.state.projectors = some ⟨0, 0, ws⟩ ∧
        mapGet 0 sc₂.state.projectors = some ⟨0, 0, ws⟩ := by
  obtain ⟨sc₁, hr₁, hpk₁, hch₁, hcalls₁, hpos₁, ws, hws, hwslen, hwspos⟩ :=
    first_render_spec registry append order₁ hnd hsucc horder
  have hcache : ∀ (n : Nat) (v : Identifier), append[n]? = some v →
      mapGet v sc₁.state.widgetKeys
        = some ((fun m => (⟨1 + m, (append[m]?).getD ""⟩ : Key)) n) ∧
      mapGet ((fun m => (⟨1 + m, (append[m]?).getD ""⟩ : Key)) n).id
          sc₁.state.widgets
        = some ((fun m => ((append[m]?.bind (fun u => registry u m)).getD 0)) n) := by
    intro n v hv
    obtain ⟨hwk, hwid, _⟩ := hpos₁ n v hv
    obtain ⟨w, hw⟩ := Option.isSome_iff_exists.mp (hsucc n v hv)
    constructor
    · show mapGet v sc₁.state.widgetKeys
        = some ⟨1 + n, (append[n]?).getD ""⟩
      rw [hv, Option.getD_some]
      exact hwk
    · show mapGet (1 + n) sc₁.state.widgets
        = some ((append[n]?.bind (fun u => registry u n)).getD 0)
      rw [hv, hwid, hw]
      simp [hw]
  obtain ⟨sc₂, hr₂, hwk₂, hwid₂, hh₂, hcalls₂, hdes₂, ws₂, hws₂, hws₂len, hws₂pos⟩ :=
    second_render_spec registry append order₂ sc₁ ws
      (fun m => ⟨1 + m, (append[m]?).getD ""⟩)
      (fun m => ((append[m]?.bind (fun u => registry u m)).getD 0))
      hpk₁ hws hch₁ hcache
  have hwseq : ws₂ = ws := by
    apply List.ext_getElem?
    intro n
    by_cases hn : n < append.length
    · have hv : append[n]? = some append[n] := List.getElem?_eq_getElem hn
      obtain ⟨w, hw⟩ := Option.isSome_iff_exists.mp (hsucc n append[n] hv)
      rw [hws₂pos n append[n] hv, hwspos n append[n] hv, hw]
      simp [hv, hw]
    · rw [List.getElem?_eq_none, List.getElem?_eq_none]
      · rw [hwslen]; exact Nat.le_of_not_lt hn
      · rw [hws₂len]; exact Nat.le_of_not_lt hn
  refine ⟨sc₁, sc₂, hr₁, hr₂, hcalls₁, hcalls₂.trans hcalls₁, ?_, hwk₂, hwid₂,
    ?_, ws, hws, ?_⟩
  · intro v hv
    rw [hcalls₂.trans hcalls₁]
    exact List.count_eq_one_of_mem hnd hv
  · intro n v hv
    obtain ⟨hwk, hwid, _⟩ := hpos₁ n v hv
    obtain ⟨w, hw⟩ := Option.isSome_iff_exists.mp (hsucc n v hv)
    refine ⟨w, hw, hwk, by rw [hwid, hw], ?_, ?_⟩
    · rw [hwk₂]; exact hwk
    · rw [hwid₂, hwid, hw]
  · rw [hws₂, hwseq]

theorem identity_stability_distinct_witness :
    ∃ sc₁ sc₂ : Scene,
      render regAB 0 (SceneElement.projector ["A", "B"]) none [0, 1]
        = (some sc₁, true) ∧
      render regAB 0 (SceneElement.projector ["A", "B"]) (some sc₁) [0, 1]
        = (some sc₂, true) ∧
      sc₁.resolveCalls = ["A", "B"] ∧
      sc₂.resolveCalls = ["A", "B"] ∧
      (∀ v ∈ (["A", "B"] : List Identifier), sc₂.resolveCalls.count v = 1) ∧
      sc₂.state.widgetKeys = sc₁.state.widgetKeys ∧
      sc₂.state.widgets = sc₁.state.widgets ∧
      (∀ (n : Nat) (v : Identifier), (["A", "B"] : List Identifier)[n]? = some v →
        ∃ w : Nat, regAB v n = some w ∧
          mapGet v sc₁.state.widgetKeys = some ⟨1 + n, v⟩ ∧
          mapGet (1 + n) sc₁.state.widgets = some w ∧
          mapGet v sc₂.state.widgetKeys = some ⟨1 + n, v⟩ ∧
          mapGet (1 + n) sc₂.state.widgets = some w) ∧
      ∃ ws : List Nat, mapGet 0 sc₁.state.projectors = some ⟨0, 0, ws⟩ ∧
        mapGet 0 sc₂.state.projectors = some ⟨0, 0, ws⟩ :=
  identity_stability_distinct regAB ["A", "B"] [0, 1] [0, 1] (by decide)
    (by
      intro n v h
      rcases n with _ | _ | n
      · cases h; decide
      · cases h; decide
      · simp at h)
    (by decide)
